import Mathlib

/-!
Shallow embedding of the `final-state` store (current implementation:
`StoreClass` with plugin handlers; file `src/unnamed/part_002`).

Modelling conventions:
* JS values that can appear as the store's state are drawn from an arbitrary
  type `V` with decidable equality; equality of `V` models JavaScript
  reference identity (the code only ever compares states with `!==`).
* Listener functions are modelled by an arbitrary type `L` with decidable
  equality (reference identity of the function objects); an invocation of a
  listener is recorded as an `LCall` event instead of running an opaque
  callback.  The field `stateDuring` records the value of `this.state` while
  the listener runs (what `getState()` returns inside the listener): in
  `updateState` the assignment `this.state = nextState` happens before the
  `forEach` loop.
* The draft-commit primitive `produce(state, draft => f(draft, params))` is a
  black box (spec section 4.1): it returns either a plain state value or a
  pending promise that later resolves to the new state.  `ProduceRes` captures
  that contract; `ProduceRes.jsValue` is the JS value of the call expression
  itself (the promise object, when pending), which is what the code binds to
  `nextState`.
* Action-map entries are JS values: either functions or objects.  The dispatch
  code probes them with `typeof anyAction.handler === 'string'`, so an entry is
  modelled by what that probe can see (`handlerProp`), whether the value is a
  function (`isFunction`, never read by dispatch), and its behaviour under
  `produce` when the plain path invokes it (`fnSem`).
* Plugin handlers are function values; the registry stores handler ids and a
  handler semantics `HandlerSem` interprets an id as a store transformer
  returning the new store, the listener calls it caused, and the outcome of
  its returned promise.  This lets a handler dispatch nested actions, as the
  `rx` handler in the test suite does.
* The promise executor of `dispatch` runs synchronously, so a whole dispatch
  is a function from the store to (store, listener-call events, outcome).
-/

/-- Settlement of a JS promise: `resolved` or `rejected` with an error
message. -/
inductive Outcome where
  | resolved : Outcome
  | rejected (msg : String) : Outcome
deriving DecidableEq, Repr

/-- Result of the draft-commit primitive `produce`: a plain value, or a
pending promise object (itself a JS value) that later resolves to the
eventual state. -/
inductive ProduceRes (V : Type) where
  | now (v : V) : ProduceRes V
  | pending (promiseObj : V) (eventual : V) : ProduceRes V
deriving DecidableEq, Repr

/-- The JS value of the expression `produce(...)`: the state itself when
synchronous, the promise object when pending. -/
def ProduceRes.jsValue {V : Type} : ProduceRes V → V
  | .now v => v
  | .pending p _ => p

/-- What `typeof entry.handler` can observe on an action-map entry: the
property is absent (`undefined`), a string, or some non-string value. -/
inductive JsProp where
  | absent : JsProp
  | str (s : String) : JsProp
  | other : JsProp
deriving DecidableEq, Repr

/-- Whether the probed property is a string (`typeof x === 'string'`). -/
def JsProp.isStr : JsProp → Bool
  | .str _ => true
  | _ => false

/-- An action-map entry as a JS value, seen through the operations `dispatch`
performs on it: `isFunction` records whether the value is a function (never
read by `dispatch`), `handlerProp` is the value of its `handler` property as
seen by `typeof`, and `fnSem` is the behaviour of
`produce(state, draft => entry(draft, params))` when the plain path invokes
the entry. -/
structure Entry (V P : Type) where
  isFunction : Bool
  handlerProp : JsProp
  fnSem : V → P → ProduceRes V

/-- Contents of an action-map object: `amap name` is the value of
`this.actions[name]`. -/
def ActionMapV (V P : Type) := String → Option (Entry V P)

/-- A recorded listener invocation: the listener, the two arguments it
receives (`type`, `prevState`), and the store's state during the call
(what `getState()` returns from inside the listener). -/
structure LCall (V L : Type) where
  listener : L
  type : String
  prevState : V
  stateDuring : V
deriving DecidableEq, Repr

/-- The mutable fields of a `StoreClass` instance.  `actionsRef` is the
reference to the action-map object stored by the constructor
(`this.actions = actions`); `handlers` is the plugin-handler registry
(`this.actionHandlers`), an object modelled as an association list whose
first match is the current binding (assignment prepends, shadowing any old
binding); `listeners` is `this.listeners`. -/
structure StoreSt (V L : Type) where
  state : V
  actionsRef : Nat
  handlers : List (String × Nat)
  listeners : List L
  name : String
deriving DecidableEq, Repr

/-- Result of one dispatch: final store, listener calls performed, and the
settlement of the promise `dispatch` returned. -/
def DResult (V L : Type) := StoreSt V L × List (LCall V L) × Outcome

/-- Interpretation of registered handler function values: a handler receives
the `PluginAction` entry and the params, may transform the store (e.g. by
nested dispatches), producing listener calls and the settlement of the
promise it returns. -/
def HandlerSem (V P L : Type) := Nat → Entry V P → P → StoreSt V L → DResult V L

/-- `createStore(initialState, actions, name)`: stores the state and a
reference to the caller's action-map object, fresh empty handler registry and
listener array, display name `Store[<name>]`.  (The `Date.now()`-based
default name is outside the model; the caller passes the name.) -/
def createStore {V L : Type} (initialState : V) (actionsRef : Nat)
    (name : String) : StoreSt V L :=
  { state := initialState
  , actionsRef := actionsRef
  , handlers := []
  , listeners := []
  , name := "Store[" ++ name ++ "]" }

/-- `getState()`: returns the state reference. -/
def StoreSt.getState {V L : Type} (σ : StoreSt V L) : V := σ.state

/-- `registerActionHandler(name, handler)`:
`this.actionHandlers[name] = handler`.  The new binding shadows any previous
one. -/
def registerActionHandler {V L : Type} (σ : StoreSt V L) (hname : String)
    (hid : Nat) : StoreSt V L :=
  { σ with handlers := (hname, hid) :: σ.handlers }

/-- `updateState(type, nextState)`: when the reference really changed,
capture `prevState`, assign `this.state = nextState`, then call every
listener in order with `(type, prevState)`; otherwise do nothing.  Returns
the new store and the listener calls performed. -/
def updateState {V L : Type} [DecidableEq V] (σ : StoreSt V L) (type : String)
    (nextState : V) : StoreSt V L × List (LCall V L) :=
  if σ.state = nextState then (σ, [])
  else
    ({ σ with state := nextState },
     σ.listeners.map fun l =>
       { listener := l, type := type, prevState := σ.state
       , stateDuring := nextState })

/-- The string overload of `dispatch` (dispatch by action name), with the
action-map object's contents `amap` already dereferenced from
`this.actions`.  Mirrors `StoreClass.dispatch`:
* unknown name: `resolve()` and return;
* entry whose `handler` property is a string: plugin path — look up the
  handler in the registry; if registered, the handler's promise settlement is
  propagated by `.then(() => resolve()).catch(e => reject(e))`; otherwise
  `reject(new Error(...))`;
* any other entry: plain path — `produce` the next state, `updateState`,
  `resolve()`. -/
def dispatchName {V P L : Type} [DecidableEq V] (hsem : HandlerSem V P L)
    (amap : ActionMapV V P) (σ : StoreSt V L) (action : String) (params : P) :
    DResult V L :=
  match amap action with
  | none => (σ, [], Outcome.resolved)
  | some theAction =>
    match theAction.handlerProp with
    | JsProp.str hname =>
      match σ.handlers.lookup hname with
      | some hid => hsem hid theAction params σ
      | none =>
        (σ, [],
         Outcome.rejected
           ("The handler '" ++ hname ++ "' is not registered"))
    | _ =>
      let nextState := (theAction.fnSem σ.state params).jsValue
      let r := updateState σ action nextState
      (r.1, r.2, Outcome.resolved)

/-- The function overload of `dispatch` (dispatch of a directly supplied
action function with behaviour `fnSem`): `produce` the next state,
`updateState` under the sentinel name `NO_TYPE`, `resolve()`. -/
def dispatchFn {V P L : Type} [DecidableEq V] (σ : StoreSt V L)
    (fnSem : V → P → ProduceRes V) (params : P) : DResult V L :=
  let nextState := (fnSem σ.state params).jsValue
  let r := updateState σ "NO_TYPE" nextState
  (r.1, r.2, Outcome.resolved)

/-- `unSubscribe(listener)`: `indexOf` then `splice(index, 1)` when found
(`indexOf` is modelled with not-found reported as `length` rather than `-1`,
so the JS guard `index >= 0` becomes `index < length`). -/
def unSubscribe {V L : Type} [DecidableEq L] (σ : StoreSt V L) (l : L) :
    StoreSt V L :=
  let index := σ.listeners.indexOf l
  if index < σ.listeners.length then
    { σ with listeners := σ.listeners.eraseIdx index }
  else σ

/-- `subscribe(listener)`: push the listener, return a zero-argument closure
that calls `this.unSubscribe(listener)` on the store as it is when the
closure is invoked. -/
def subscribe {V L : Type} [DecidableEq L] (σ : StoreSt V L) (l : L) :
    StoreSt V L × (StoreSt V L → StoreSt V L) :=
  ({ σ with listeners := σ.listeners ++ [l] }, fun σ2 => unSubscribe σ2 l)

/-- A sequence of name dispatches, threading the store and concatenating the
listener calls of each dispatch. -/
def dispatchSeq {V P L : Type} [DecidableEq V] (hsem : HandlerSem V P L)
    (amap : ActionMapV V P) (σ : StoreSt V L) :
    List (String × P) → StoreSt V L × List (LCall V L)
  | [] => (σ, [])
  | (n, p) :: rest =>
    let r := dispatchName hsem amap σ n p
    let r2 := dispatchSeq hsem amap r.1 rest
    (r2.1, r.2.1 ++ r2.2)

/-- One subscription-management call. -/
inductive SubOp (L : Type) where
  | sub (l : L) : SubOp L
  | unsub (l : L) : SubOp L
deriving DecidableEq, Repr

/-- Run a sequence of `subscribe` / `unSubscribe` calls. -/
def applyOps {V L : Type} [DecidableEq L] (σ : StoreSt V L) :
    List (SubOp L) → StoreSt V L
  | [] => σ
  | SubOp.sub l :: rest => applyOps (subscribe σ l).1 rest
  | SubOp.unsub l :: rest => applyOps (unSubscribe σ l) rest

/-- A trace of subscription calls is guarded when every `subscribe` happens
while that listener is not currently registered. -/
def guardedOps {V L : Type} [DecidableEq L] (σ : StoreSt V L) :
    List (SubOp L) → Bool
  | [] => true
  | SubOp.sub l :: rest =>
    !(σ.listeners.contains l) && guardedOps (subscribe σ l).1 rest
  | SubOp.unsub l :: rest => guardedOps (unSubscribe σ l) rest

/-- A heap of action-map objects: JS object references are modelled as
indices into the heap, so that the map object the constructor captured can be
mutated after the store was created. -/
def MapHeap (V P : Type) := Nat → ActionMapV V P

/-- Mutate the action-map object at reference `ref`: set (or delete, with
`none`) its entry for `aname`. -/
def setMapEntry {V P : Type} (w : MapHeap V P) (ref : Nat) (aname : String)
    (e : Option (Entry V P)) : MapHeap V P :=
  fun r => if r = ref then (fun n => if n = aname then e else w r n) else w r

/-- Dispatch by name against the heap: `this.actions[action]` dereferences
the stored `actionsRef` at dispatch time. -/
def dispatchNameIn {V P L : Type} [DecidableEq V] (hsem : HandlerSem V P L)
    (w : MapHeap V P) (σ : StoreSt V L) (action : String) (params : P) :
    DResult V L :=
  dispatchName hsem (w σ.actionsRef) σ action params

/-! ## Helper lemmas (shared) -/

/-- `unSubscribe` removes exactly the first entry reference-equal to the
listener: `indexOf` followed by `splice(index, 1)` coincides with
`List.erase`, and is the identity when the listener is absent. -/
theorem unSubscribe_eq_erase {V L : Type} [DecidableEq L] (σ : StoreSt V L)
    (l : L) : unSubscribe σ l = { σ with listeners := σ.listeners.erase l } := by
  unfold unSubscribe
  by_cases hm : l ∈ σ.listeners
  · rw [if_pos (List.indexOf_lt_length.mpr hm), List.eraseIdx_indexOf_eq_erase]
  · rw [if_neg (by rw [List.indexOf_eq_length.mpr hm]; exact lt_irrefl _),
        List.erase_of_not_mem hm]

/-- A dispatch of a no-op request (unknown name, or a plain entry whose
`produce` returns the current state reference) returns the store unchanged,
no listener calls, and a resolved outcome. -/
theorem dispatchName_noop {V P L : Type} [DecidableEq V]
    (hsem : HandlerSem V P L) (amap : ActionMapV V P) (σ : StoreSt V L)
    (n : String) (p : P)
    (h : amap n = none ∨
      ∃ e, amap n = some e ∧ e.handlerProp.isStr = false ∧
        ∀ v, e.fnSem v p = ProduceRes.now v) :
    dispatchName hsem amap σ n p = (σ, [], Outcome.resolved) := by
  rcases h with hnone | ⟨e, he, hplain, hid⟩
  · simp only [dispatchName, hnone]
  · cases hp : e.handlerProp with
    | str s => rw [hp] at hplain; simp [JsProp.isStr] at hplain
    | absent =>
      simp [dispatchName, he, hp, hid σ.state, ProduceRes.jsValue, updateState]
    | other =>
      simp [dispatchName, he, hp, hid σ.state, ProduceRes.jsValue, updateState]

/-! ## Claims -/

/-- C2: a dispatch by name whose name is absent from the ActionMap completes
without error (the completion signal resolves), the state reference returned
by `getState()` is unchanged, and no listener is invoked. -/
theorem C2_unknown_action_silent_noop {V P L : Type} [DecidableEq V]
    (hsem : HandlerSem V P L) (amap : ActionMapV V P) (σ : StoreSt V L)
    (aname : String) (p : P) (h : amap aname = none) :
    dispatchName hsem amap σ aname p = (σ, [], Outcome.resolved) ∧
    (dispatchName hsem amap σ aname p).1.getState = σ.getState ∧
    (dispatchName hsem amap σ aname p).2.1 = [] := by
  have hd : dispatchName hsem amap σ aname p = (σ, [], Outcome.resolved) := by
    simp only [dispatchName, h]
  exact ⟨hd, by rw [hd], by rw [hd]⟩

/-- Witness for C2 at a concrete store and an empty action map. -/
theorem C2_unknown_action_silent_noop_witness :
    ((fun _ => none : ActionMapV Nat Unit) "missing" = none) ∧
    dispatchName (L := Nat) (fun _ _ _ σ2 => (σ2, [], Outcome.resolved))
        (fun _ => none) (createStore 0 0 "w") "missing" () =
      (createStore 0 0 "w", [], Outcome.resolved) :=
  ⟨rfl,
   (C2_unknown_action_silent_noop (fun _ _ _ σ2 => (σ2, [], Outcome.resolved))
     (fun _ => none) (createStore 0 0 "w") "missing" () rfl).1⟩

/-- C3: a dispatch by name of a PluginAction whose named handler has no
registration at dispatch time fails its completion signal with an error
naming the handler, leaves the state reference unchanged, and invokes no
listener. -/
theorem C3_handler_not_registered_rejects {V P L : Type} [DecidableEq V]
    (hsem : HandlerSem V P L) (amap : ActionMapV V P) (σ : StoreSt V L)
    (aname hname : String) (p : P) (e : Entry V P)
    (h1 : amap aname = some e) (h2 : e.handlerProp = JsProp.str hname)
    (h3 : σ.handlers.lookup hname = none) :
    dispatchName hsem amap σ aname p =
      (σ, [],
       Outcome.rejected ("The handler '" ++ hname ++ "' is not registered")) ∧
    (dispatchName hsem amap σ aname p).1.getState = σ.getState ∧
    (dispatchName hsem amap σ aname p).2.1 = [] := by
  have hd : dispatchName hsem amap σ aname p =
      (σ, [],
       Outcome.rejected ("The handler '" ++ hname ++ "' is not registered")) := by
    simp only [dispatchName, h1, h2, h3]
  exact ⟨hd, by rw [hd], by rw [hd]⟩

/-- Witness for C3: a store with an empty handler registry dispatching a
PluginAction naming handler `rx`. -/
theorem C3_handler_not_registered_rejects_witness :
    dispatchName (L := Nat) (fun _ _ _ σ2 => (σ2, [], Outcome.resolved))
        (fun n => if n = "pluginAct"
          then some ⟨false, JsProp.str "rx", fun v _ => ProduceRes.now v⟩
          else none)
        (createStore 0 0 "w") "pluginAct" () =
      (createStore 0 0 "w", [],
       Outcome.rejected "The handler 'rx' is not registered") :=
  (C3_handler_not_registered_rejects
    (fun _ _ _ σ2 => (σ2, [], Outcome.resolved))
    (fun n => if n = "pluginAct"
      then some ⟨false, JsProp.str "rx", fun v _ => ProduceRes.now v⟩
      else none)
    (createStore 0 0 "w") "pluginAct" "rx" ()
    ⟨false, JsProp.str "rx", fun v _ => ProduceRes.now v⟩
    (by simp) rfl rfl).1

/-- C4: a failing plugin dispatch adds nothing of its own: when the
handler's completion signal rejects, `dispatch` rejects with that same
failure, its final store is exactly the handler's (the dispatch frame
performs no commit of its own), and its listener calls are exactly the
handler's (the frame triggers no notification); when the handler is not
registered, the dispatch rejects leaving the store untouched with no
listener calls. -/
theorem C4_failing_dispatch_adds_nothing {V P L : Type} [DecidableEq V]
    (hsem : HandlerSem V P L) (amap : ActionMapV V P) (σ : StoreSt V L)
    (aname hname : String) (p : P) (e : Entry V P)
    (h1 : amap aname = some e) (h2 : e.handlerProp = JsProp.str hname) :
    (σ.handlers.lookup hname = none →
      dispatchName hsem amap σ aname p =
        (σ, [],
         Outcome.rejected ("The handler '" ++ hname ++ "' is not registered"))) ∧
    (∀ hid σ2 ev msg, σ.handlers.lookup hname = some hid →
      hsem hid e p σ = (σ2, ev, Outcome.rejected msg) →
      dispatchName hsem amap σ aname p = (σ2, ev, Outcome.rejected msg)) := by
  constructor
  · intro h3
    simp only [dispatchName, h1, h2, h3]
  · intro hid σ2 ev msg h3 h4
    simp only [dispatchName, h1, h2, h3, h4]

/-- Witness for C4: a registered handler that rejects without touching the
store; the dispatch propagates the same rejection, the same store, and no
listener calls. -/
theorem C4_failing_dispatch_adds_nothing_witness :
    dispatchName (L := Nat)
        (fun _ _ _ σ2 => (σ2, [], Outcome.rejected "Something went wrong."))
        (fun n => if n = "pluginAct"
          then some ⟨false, JsProp.str "rx", fun v _ => ProduceRes.now v⟩
          else none)
        (registerActionHandler (createStore 0 0 "w") "rx" 3) "pluginAct" () =
      (registerActionHandler (createStore 0 0 "w") "rx" 3, [],
       Outcome.rejected "Something went wrong.") :=
  (C4_failing_dispatch_adds_nothing
    (fun _ _ _ σ2 => (σ2, [], Outcome.rejected "Something went wrong."))
    (fun n => if n = "pluginAct"
      then some ⟨false, JsProp.str "rx", fun v _ => ProduceRes.now v⟩
      else none)
    (registerActionHandler (createStore 0 0 "w") "rx" 3) "pluginAct" "rx" ()
    ⟨false, JsProp.str "rx", fun v _ => ProduceRes.now v⟩
    (by simp) rfl).2 3
    (registerActionHandler (createStore 0 0 "w") "rx" 3) []
    "Something went wrong." rfl rfl

/-- C5: a commit step whose produced state is reference-identical to the
stored state does nothing (no reassignment, no listener call), and a whole
sequence of dispatches that never changes the state reference (each request
is either an unknown name or a plain entry whose `produce` returns the
current reference) invokes no listener at all. -/
theorem C5_identical_state_never_notifies {V P L : Type} [DecidableEq V]
    (hsem : HandlerSem V P L) (amap : ActionMapV V P) (σ : StoreSt V L)
    (ty : String) (reqs : List (String × P))
    (h : ∀ q ∈ reqs, amap q.1 = none ∨
      ∃ e, amap q.1 = some e ∧ e.handlerProp.isStr = false ∧
        ∀ v, e.fnSem v q.2 = ProduceRes.now v) :
    updateState σ ty σ.state = (σ, []) ∧
    dispatchSeq hsem amap σ reqs = (σ, []) := by
  constructor
  · simp [updateState]
  · induction reqs generalizing σ with
    | nil => rfl
    | cons q rest ih =>
      obtain ⟨n, p⟩ := q
      have hstep := dispatchName_noop hsem amap σ n p
        (h (n, p) (List.mem_cons_self _ _))
      have hrest := ih σ (fun q hq => h q (List.mem_cons_of_mem _ hq))
      simp only [dispatchSeq, hstep, hrest, List.nil_append]

/-- Witness for C5: a map with a no-op action; dispatching it and an unknown
name twice yields the untouched store and zero notifications. -/
theorem C5_identical_state_never_notifies_witness :
    updateState (L := Nat) (createStore 0 0 "w") "doNothing" 0 =
      (createStore 0 0 "w", []) ∧
    dispatchSeq (L := Nat) (fun _ _ _ σ2 => (σ2, [], Outcome.resolved))
        (fun n => if n = "doNothing"
          then some ⟨true, JsProp.absent, fun v _ => ProduceRes.now v⟩
          else none)
        (createStore 0 0 "w")
        [("doNothing", ()), ("missing", ()), ("doNothing", ())] =
      (createStore 0 0 "w", []) :=
  C5_identical_state_never_notifies
    (fun _ _ _ σ2 => (σ2, [], Outcome.resolved))
    (fun n => if n = "doNothing"
      then some ⟨true, JsProp.absent, fun v _ => ProduceRes.now v⟩
      else none)
    (createStore 0 0 "w") "doNothing"
    [("doNothing", ()), ("missing", ()), ("doNothing", ())]
    (by
      intro q hq
      fin_cases hq
      · exact Or.inr ⟨⟨true, JsProp.absent, fun v _ => ProduceRes.now v⟩,
          by simp, rfl, fun v => rfl⟩
      · exact Or.inl (by simp)
      · exact Or.inr ⟨⟨true, JsProp.absent, fun v _ => ProduceRes.now v⟩,
          by simp, rfl, fun v => rfl⟩)

/-- C6: a commit that really changes the state invokes every listener
registered at commit time exactly once, in subscription order, passing the
action name and the pre-commit state (the same `prevState` reference for all
of them), while `getState()` from inside a listener already returns the
committed new state. -/
theorem C6_commit_notifies_in_order {V L : Type} [DecidableEq V]
    (σ : StoreSt V L) (ty : String) (next : V) (h : σ.state ≠ next) :
    (updateState σ ty next).1.getState = next ∧
    (updateState σ ty next).1.listeners = σ.listeners ∧
    (updateState σ ty next).2 =
      σ.listeners.map (fun l =>
        { listener := l, type := ty, prevState := σ.state
        , stateDuring := next }) ∧
    ((updateState σ ty next).2.map LCall.listener) = σ.listeners ∧
    ∀ c ∈ (updateState σ ty next).2,
      c.type = ty ∧ c.prevState = σ.state ∧ c.stateDuring = next := by
  have hu : updateState σ ty next =
      ({ σ with state := next },
       σ.listeners.map fun l =>
         { listener := l, type := ty, prevState := σ.state
         , stateDuring := next }) := by
    simp [updateState, h]
  refine ⟨by rw [hu]; rfl, by rw [hu], by rw [hu], ?_, ?_⟩
  · rw [hu]
    simp only [List.map_map]
    exact List.map_id σ.listeners
  · rw [hu]
    intro c hc
    simp only [List.mem_map] at hc
    obtain ⟨l, _, rfl⟩ := hc
    exact ⟨rfl, rfl, rfl⟩

/-- Witness for C6: two listeners subscribed in order 1, 2; one committed
change produces the two calls in order with the shared previous state and
the new state visible during the calls. -/
theorem C6_commit_notifies_in_order_witness :
    ((⟨0, 0, [], [1, 2], "s"⟩ : StoreSt Nat Nat).state ≠ 5) ∧
    (updateState (⟨0, 0, [], [1, 2], "s"⟩ : StoreSt Nat Nat) "increaseA" 5).2 =
      [⟨1, "increaseA", 0, 5⟩, ⟨2, "increaseA", 0, 5⟩] :=
  ⟨by decide, by
    have h := (C6_commit_notifies_in_order
      (⟨0, 0, [], [1, 2], "s"⟩ : StoreSt Nat Nat) "increaseA" 5
      (by decide)).2.2.1
    simpa using h⟩

/-- C9: dispatch-by-name routes a found entry to the plugin path exactly
when its `handler` property is a string, and otherwise applies it as a plain
action.  The entry `e` is arbitrary — in particular its `isFunction` flag is
unconstrained, so a function value that happens to carry a string `handler`
property is treated as a PluginAction and the plain-action path is never
taken for it. -/
theorem C9_routing_by_string_handler_field {V P L : Type} [DecidableEq V]
    (hsem : HandlerSem V P L) (amap : ActionMapV V P) (σ : StoreSt V L)
    (aname : String) (p : P) (e : Entry V P) (h : amap aname = some e) :
    (∀ hname, e.handlerProp = JsProp.str hname →
      dispatchName hsem amap σ aname p =
        (match σ.handlers.lookup hname with
         | some hid => hsem hid e p σ
         | none =>
           (σ, [],
            Outcome.rejected
              ("The handler '" ++ hname ++ "' is not registered")))) ∧
    (e.handlerProp.isStr = false →
      dispatchName hsem amap σ aname p =
        ((updateState σ aname ((e.fnSem σ.state p).jsValue)).1,
         (updateState σ aname ((e.fnSem σ.state p).jsValue)).2,
         Outcome.resolved)) := by
  refine ⟨?_, ?_⟩
  · intro hname hp
    simp only [dispatchName, h, hp]
  · intro hplain
    cases hp : e.handlerProp with
    | str s => rw [hp] at hplain; simp [JsProp.isStr] at hplain
    | absent => simp only [dispatchName, h, hp]
    | other => simp only [dispatchName, h, hp]

/-- Witness for C9: a function-valued entry whose `handler` property is the
string `rx` is routed to the plugin path (here: rejected, since no handler
is registered) and its plain-action behaviour is never applied. -/
theorem C9_routing_by_string_handler_field_witness :
    dispatchName (L := Nat) (fun _ _ _ σ2 => (σ2, [], Outcome.resolved))
        (fun n => if n = "weird"
          then some ⟨true, JsProp.str "rx", fun v _ => ProduceRes.now (v + 1)⟩
          else none)
        (createStore 0 0 "w") "weird" () =
      (createStore 0 0 "w", [],
       Outcome.rejected "The handler 'rx' is not registered") := by
  have h := ((C9_routing_by_string_handler_field (L := Nat)
    (fun _ _ _ σ2 => (σ2, [], Outcome.resolved))
    (fun n => if n = "weird"
      then some ⟨true, JsProp.str "rx", fun v _ => ProduceRes.now (v + 1)⟩
      else none)
    (createStore 0 0 "w") "weird" ()
    ⟨true, JsProp.str "rx", fun v _ => ProduceRes.now (v + 1)⟩
    (by simp)).1) "rx" rfl
  simpa using h

/-- C10: the constructor retains the caller's action-map object by
reference; a dispatch resolves the name against that object's contents at
dispatch time, so an entry added to (or deleted from) the same map object
after creation is (or is no longer) dispatchable. -/
theorem C10_action_map_shared_by_reference {V P L : Type} [DecidableEq V]
    (hsem : HandlerSem V P L) (w : MapHeap V P) (init : V) (r : Nat)
    (snm aname : String) (e : Entry V P) (p : P)
    (hplain : e.handlerProp.isStr = false) (hmiss : w r aname = none) :
    (createStore (L := L) init r snm).actionsRef = r ∧
    dispatchNameIn hsem w (createStore init r snm) aname p =
      (createStore init r snm, [], Outcome.resolved) ∧
    dispatchNameIn hsem (setMapEntry w r aname (some e))
        (createStore init r snm) aname p =
      ((updateState (createStore init r snm) aname
          ((e.fnSem init p).jsValue)).1,
       (updateState (createStore init r snm) aname
          ((e.fnSem init p).jsValue)).2,
       Outcome.resolved) ∧
    dispatchNameIn hsem
        (setMapEntry (setMapEntry w r aname (some e)) r aname none)
        (createStore init r snm) aname p =
      (createStore init r snm, [], Outcome.resolved) := by
  refine ⟨rfl, ?_, ?_, ?_⟩
  · exact dispatchName_noop hsem _ _ _ _ (Or.inl hmiss)
  · have hfound : setMapEntry w r aname (some e) r aname = some e := by
      simp [setMapEntry]
    cases hp : e.handlerProp with
    | str s => rw [hp] at hplain; simp [JsProp.isStr] at hplain
    | absent =>
      simp only [dispatchNameIn, dispatchName, createStore, hfound, hp]
    | other =>
      simp only [dispatchNameIn, dispatchName, createStore, hfound, hp]
  · refine dispatchName_noop hsem _ _ _ _ (Or.inl ?_)
    simp [setMapEntry, createStore]

/-- Witness for C10: a map object initially lacking `added`; after mutating
the shared object the store dispatches it, and after deleting it the
dispatch is a silent no-op again. -/
theorem C10_action_map_shared_by_reference_witness :
    dispatchNameIn (L := Nat) (fun _ _ _ σ2 => (σ2, [], Outcome.resolved))
        (setMapEntry (fun _ _ => none) 4 "added"
          (some ⟨true, JsProp.absent, fun v _ => ProduceRes.now (v + 1)⟩))
        (createStore 0 4 "w") "added" () =
      ((createStore 1 4 "w" : StoreSt Nat Nat), [], Outcome.resolved) := by
  have h := (C10_action_map_shared_by_reference (L := Nat)
    (fun _ _ _ σ2 => (σ2, [], Outcome.resolved))
    (fun _ _ => none) 0 4 "w" "added"
    ⟨true, JsProp.absent, fun v _ => ProduceRes.now (v + 1)⟩ ()
    rfl rfl).2.2.1
  rw [h]
  simp [updateState, createStore, ProduceRes.jsValue]

/-- C1 counterexample: a plain action whose `produce` call returns a pending
promise (promise object `2`, eventually resolving to state `1`) dispatched
against state `0` with one listener.  The dispatch completion signal resolves
immediately, yet the resolved state `1` is never committed: the code commits
the promise object itself (state becomes `2`) and notifies the listener with
it, refuting both that dispatch awaits the pending result before
commit-and-notify and that the completion signal never resolves while the
committed state update is still pending. -/
theorem C1_counterexample :
    (dispatchFn (P := Unit) (⟨0, 0, [], [7], "s"⟩ : StoreSt Nat Nat)
        (fun _ _ => ProduceRes.pending 2 1) ()).2.2 = Outcome.resolved ∧
    (dispatchFn (P := Unit) (⟨0, 0, [], [7], "s"⟩ : StoreSt Nat Nat)
        (fun _ _ => ProduceRes.pending 2 1) ()).1.state = 2 ∧
    (dispatchFn (P := Unit) (⟨0, 0, [], [7], "s"⟩ : StoreSt Nat Nat)
        (fun _ _ => ProduceRes.pending 2 1) ()).1.state ≠ 1 ∧
    (dispatchFn (P := Unit) (⟨0, 0, [], [7], "s"⟩ : StoreSt Nat Nat)
        (fun _ _ => ProduceRes.pending 2 1) ()).2.1 =
      [⟨7, "NO_TYPE", 0, 2⟩] := by
  exact ⟨by decide, by decide, by decide, by decide⟩

/-- C1 amended: for every dispatch of a plain action (by name or by direct
function), the dispatch never awaits the draft-commit primitive: it commits
the JS value the primitive returned as-is — the promise object itself, when
the result is pending — and its completion signal resolves only after that
synchronous commit-and-notify has finished. -/
theorem C1_amended_commit_is_synchronous {V P L : Type} [DecidableEq V]
    (hsem : HandlerSem V P L) (amap : ActionMapV V P) (σ : StoreSt V L)
    (aname : String) (p : P) (e : Entry V P) (f : V → P → ProduceRes V)
    (h1 : amap aname = some e) (h2 : e.handlerProp.isStr = false) :
    dispatchName hsem amap σ aname p =
      ((updateState σ aname ((e.fnSem σ.state p).jsValue)).1,
       (updateState σ aname ((e.fnSem σ.state p).jsValue)).2,
       Outcome.resolved) ∧
    dispatchFn σ f p =
      ((updateState σ "NO_TYPE" ((f σ.state p).jsValue)).1,
       (updateState σ "NO_TYPE" ((f σ.state p).jsValue)).2,
       Outcome.resolved) := by
  constructor
  · cases hp : e.handlerProp with
    | str s => rw [hp] at h2; simp [JsProp.isStr] at h2
    | absent => simp only [dispatchName, h1, hp]
    | other => simp only [dispatchName, h1, hp]
  · rfl

/-- Witness for the amended C1: the `increaseA` scenario — a synchronous
produce result is committed and the dispatch resolves after the commit. -/
theorem C1_amended_commit_is_synchronous_witness :
    dispatchName (L := Nat) (fun _ _ _ σ2 => (σ2, [], Outcome.resolved))
        (fun n => if n = "increaseA"
          then some ⟨true, JsProp.absent, fun v _ => ProduceRes.now (v + 1)⟩
          else none)
        (createStore 1 0 "w") "increaseA" () =
      ((createStore 2 0 "w" : StoreSt Nat Nat), [], Outcome.resolved) := by
  have h := (C1_amended_commit_is_synchronous (L := Nat)
    (fun _ _ _ σ2 => (σ2, [], Outcome.resolved))
    (fun n => if n = "increaseA"
      then some ⟨true, JsProp.absent, fun v _ => ProduceRes.now (v + 1)⟩
      else none)
    (createStore 1 0 "w") "increaseA" ()
    ⟨true, JsProp.absent, fun v _ => ProduceRes.now (v + 1)⟩
    (fun v _ => ProduceRes.now v) (by simp) rfl).1
  rw [h]
  simp [updateState, createStore, ProduceRes.jsValue]

/-- C7 counterexample: after subscribing the same listener twice (which the
code allows — `subscribe` pushes unconditionally), `unSubscribe` is not
idempotent: the second call removes the second copy, so calling it twice
differs from calling it once. -/
theorem C7_counterexample :
    unSubscribe (unSubscribe
        (subscribe (subscribe (createStore (V := Nat) (L := Nat) 0 0 "s") 7).1
          7).1 7) 7 ≠
      unSubscribe
        (subscribe (subscribe (createStore (V := Nat) (L := Nat) 0 0 "s") 7).1
          7).1 7 := by
  decide

/-- C7 amended: the closure returned by `subscribe(listener)` and a direct
`unSubscribe(listener)` call are equivalent; each removes the first
listener-sequence entry identical to the listener and is a no-op when none
is present; and provided the sequence holds at most one entry for the
listener (as after any single subscription), calling either twice has no
further effect. -/
theorem C7_amended_unsubscribe_equivalent {V L : Type} [DecidableEq L]
    (σ : StoreSt V L) (l : L) (h : σ.listeners.count l ≤ 1) :
    (∀ σ2, (subscribe σ l).2 σ2 = unSubscribe σ2 l) ∧
    (l ∉ σ.listeners → unSubscribe σ l = σ) ∧
    unSubscribe (unSubscribe σ l) l = unSubscribe σ l := by
  refine ⟨fun σ2 => rfl, ?_, ?_⟩
  · intro hm
    rw [unSubscribe_eq_erase, List.erase_of_not_mem hm]
  · have hz : (σ.listeners.erase l).count l = 0 := by
      have hce := List.count_erase_self l σ.listeners
      omega
    have hnot : l ∉ σ.listeners.erase l := List.count_eq_zero.mp hz
    simp [unSubscribe_eq_erase, List.erase_of_not_mem hnot]

/-- Witness for the amended C7: a store holding the listener once. -/
theorem C7_amended_unsubscribe_equivalent_witness :
    ((⟨0, 0, [], [7], "s"⟩ : StoreSt Nat Nat).listeners.count 7 ≤ 1) ∧
    unSubscribe (unSubscribe (⟨0, 0, [], [7], "s"⟩ : StoreSt Nat Nat) 7) 7 =
      unSubscribe (⟨0, 0, [], [7], "s"⟩ : StoreSt Nat Nat) 7 :=
  ⟨by decide,
   (C7_amended_unsubscribe_equivalent
     (⟨0, 0, [], [7], "s"⟩ : StoreSt Nat Nat) 7 (by decide)).2.2⟩

/-- C8 counterexample: subscribing the same listener twice leaves two
reference-equal entries in the listener sequence, so the no-duplicates
invariant fails on a reachable store. -/
theorem C8_counterexample :
    ¬ ((subscribe (subscribe (createStore (V := Nat) (L := Nat) 0 0 "s") 5).1
        5).1.listeners.count 5 ≤ 1) := by
  decide

/-- C8 amended: the listener sequence can contain duplicates in general
(`subscribe` appends unconditionally); it is duplicate-free after any
sequence of subscription calls in which every `subscribe` happens while that
listener is not currently registered, starting from a duplicate-free store —
in particular each listener then has at most one entry. -/
theorem C8_amended_nodup_under_guarded_traces {V L : Type} [DecidableEq L]
    (σ : StoreSt V L) (ops : List (SubOp L)) (hnd : σ.listeners.Nodup)
    (hg : guardedOps σ ops = true) :
    (applyOps σ ops).listeners.Nodup ∧
    ∀ l, (applyOps σ ops).listeners.count l ≤ 1 := by
  have key : ∀ (ops2 : List (SubOp L)) (σ2 : StoreSt V L),
      σ2.listeners.Nodup → guardedOps σ2 ops2 = true →
      (applyOps σ2 ops2).listeners.Nodup := by
    intro ops2
    induction ops2 with
    | nil => intro σ2 hnd2 _; exact hnd2
    | cons op rest ih =>
      intro σ2 hnd2 hg2
      cases op with
      | sub l =>
        simp only [guardedOps, Bool.and_eq_true, Bool.not_eq_true'] at hg2
        have hnm : l ∉ σ2.listeners := by simpa using hg2.1
        refine ih _ ?_ hg2.2
        simp [subscribe, List.nodup_append, hnd2, hnm]
      | unsub l =>
        simp only [guardedOps] at hg2
        refine ih _ ?_ hg2
        rw [unSubscribe_eq_erase]
        exact hnd2.erase l
  have hmain := key ops σ hnd hg
  exact ⟨hmain, List.nodup_iff_count_le_one.mp hmain⟩

/-- Witness for the amended C8: a guarded trace that subscribes, removes and
re-subscribes listeners; the final sequence is duplicate-free. -/
theorem C8_amended_nodup_under_guarded_traces_witness :
    ((createStore (V := Nat) (L := Nat) 0 0 "s").listeners.Nodup) ∧
    guardedOps (createStore (V := Nat) (L := Nat) 0 0 "s")
      [SubOp.sub 1, SubOp.sub 2, SubOp.unsub 1, SubOp.sub 1] = true ∧
    (applyOps (createStore (V := Nat) (L := Nat) 0 0 "s")
      [SubOp.sub 1, SubOp.sub 2, SubOp.unsub 1, SubOp.sub 1]).listeners.Nodup :=
  ⟨by decide, by decide,
   (C8_amended_nodup_under_guarded_traces
     (createStore (V := Nat) (L := Nat) 0 0 "s")
     [SubOp.sub 1, SubOp.sub 2, SubOp.unsub 1, SubOp.sub 1]
     (by decide) (by decide)).1⟩
